import Mathlib

/-!
Verification development for the HoopsFactory video downloader (src/main.py).

The Python program is shallowly embedded below.  Pure computations (the
previous-Wednesday date, the filename sanitization, the time-window regex
filter) are translated directly.  Effectful steps (network requests, browser
interactions, filesystem writes) are modelled by explicit oracles recording
whether each external operation succeeds, returns a value, or raises, and the
surrounding Python control flow (try/except/finally, the retry loop) is
translated faithfully over those oracles.  Character classes of the regexes
are modelled over their ASCII fragment (the spec itself describes titles and
filenames in ASCII terms).
-/

namespace HoopsFactory

/-! ## Filename sanitization (download_video, src/main.py lines 383-388) -/

/-- ASCII fragment of the regex class `\w` used in `re.sub` on line 386:
letters, digits and the underscore. -/
def isWordChar (c : Char) : Bool := c.isAlphanum || c == '_'

/-- ASCII fragment of the regex class `\s`: space, tab, newline, carriage
return, vertical tab and form feed. -/
def isSpaceChar (c : Char) : Bool :=
  c == ' ' || c == '\t' || c == '\n' || c == '\r' || c == '\x0b' || c == '\x0c'

/-- The character class `[-\s]` of the second `re.sub` on line 387. -/
def isSepChar (c : Char) : Bool := c == '-' || isSpaceChar c

/-- First substitution on line 386: `re.sub(r'[^\w\s-]', '', title)` deletes
every character outside word characters, whitespace and the hyphen. -/
def stripForbidden (l : List Char) : List Char :=
  l.filter (fun c => isWordChar c || isSpaceChar c || c == '-')

/-- Python `str.strip()` on line 386: remove leading and trailing whitespace. -/
def pyStrip (l : List Char) : List Char :=
  ((l.dropWhile isSpaceChar).reverse.dropWhile isSpaceChar).reverse

/-- Second substitution on line 387: `re.sub(r'[-\s]+', '_', s)` replaces every
maximal run of hyphens/whitespace by a single underscore.  The boolean flag
records whether the scan is currently inside such a run. -/
def collapseSeps : Bool → List Char → List Char
  | _, [] => []
  | inRun, c :: rest =>
    if isSepChar c then
      if inRun then collapseSeps true rest else '_' :: collapseSeps true rest
    else c :: collapseSeps false rest

/-- The `safe_title` computation of `download_video` (lines 386-387). -/
def sanitize_title (title : List Char) : List Char :=
  collapseSeps false (pyStrip (stripForbidden title))

/-- The `filename` computation of `download_video` (line 388):
`f"{safe_title}.mp4"`. -/
def video_filename (title : List Char) : List Char :=
  sanitize_title title ++ (".mp4".data)

/-! ## Video records (get_video_links, src/main.py lines 306-339) -/

/-- A scraped video card, as pushed by the page script of `get_video_links`:
title text, the download anchor href, the `path` query parameter (if present),
the `video` element `src` (if present), and the card index. -/
structure VideoRecord where
  title : List Char
  downloadUrl : String
  directUrl : Option String
  videoSrc : Option String
  index : Nat
deriving DecidableEq

/-! ## The time regex `(\d{1,2})h(\d{2})` (get_video_links, lines 347-351) -/

/-- Numeric value of an ASCII digit. -/
def digitVal (c : Char) : Nat := c.toNat - 48

/-- Match `\d\dh\d\d` at the head of the list (the greedy two-digit-hour
alternative tried first by the regex engine). -/
def tryMatch2 : List Char → Option (Nat × Nat)
  | d1 :: d2 :: c :: m1 :: m2 :: _ =>
    if d1.isDigit && d2.isDigit && c == 'h' && m1.isDigit && m2.isDigit then
      some (10 * digitVal d1 + digitVal d2, 10 * digitVal m1 + digitVal m2)
    else none
  | _ => none

/-- Match `\dh\d\d` at the head of the list (the one-digit-hour alternative,
tried after the two-digit one fails at this position). -/
def tryMatch1 : List Char → Option (Nat × Nat)
  | d1 :: c :: m1 :: m2 :: _ =>
    if d1.isDigit && c == 'h' && m1.isDigit && m2.isDigit then
      some (digitVal d1, 10 * digitVal m1 + digitVal m2)
    else none
  | _ => none

/-- Match the pattern `(\d{1,2})h(\d{2})` at a fixed position: greedy on the
hour, so the two-digit form is preferred. -/
def tryMatchAt (l : List Char) : Option (Nat × Nat) :=
  match tryMatch2 l with
  | some hm => some hm
  | none => tryMatch1 l

/-- `re.search(r'(\d{1,2})h(\d{2})', title)` (line 347): scan positions left to
right and return the (hour, minute) groups of the leftmost match. -/
def reSearchTime : List Char → Option (Nat × Nat)
  | [] => none
  | c :: rest =>
    match tryMatchAt (c :: rest) with
    | some hm => some hm
    | none => reSearchTime rest

/-- `hour * 100 + minute` (line 351). -/
def time_value (hm : Nat × Nat) : Nat := hm.1 * 100 + hm.2

/-- Whether one video is kept by the time filter of `get_video_links`
(lines 347-362): keep when the first regex match has value in [1200, 1330],
and keep (with a warning) when there is no match at all. -/
def keepVideo (title : List Char) : Bool :=
  match reSearchTime title with
  | some hm => decide (1200 ≤ time_value hm ∧ time_value hm ≤ 1330)
  | none => true

/-- The filtering loop of `get_video_links` (lines 342-365): returns the kept
videos in order, together with the titles for which the "could not determine
time" warning was logged. -/
def filter_videos : List VideoRecord → List VideoRecord × List (List Char)
  | [] => ([], [])
  | v :: rest =>
    match reSearchTime v.title with
    | some hm =>
      if 1200 ≤ time_value hm ∧ time_value hm ≤ 1330 then
        (v :: (filter_videos rest).1, (filter_videos rest).2)
      else filter_videos rest
    | none => (v :: (filter_videos rest).1, v.title :: (filter_videos rest).2)

/-- Modelled from the words of claim C4 (not from the source): the title
contains, at some position, an occurrence of `<1-2 digit>h<2 digits>` whose
value lies in [1200, 1330]. -/
def containsTimeInRange : List Char → Bool
  | [] => false
  | c :: rest =>
    (match tryMatchAt (c :: rest) with
     | some hm => decide (1200 ≤ time_value hm ∧ time_value hm ≤ 1330)
     | none => false) || containsTimeInRange rest

/-- `get_video_links` (lines 300-372): the whole body is wrapped in
try/except; any exception (`raisesInside`) yields the empty list, otherwise
the scraped cards are filtered by time. -/
def get_video_links (raisesInside : Bool) (cards : List VideoRecord) :
    List VideoRecord :=
  if raisesInside then [] else (filter_videos cards).1

/-! ## Previous Wednesday (get_previous_wednesday, lines 117-134)

Days are modelled as integers counting from a Monday, so that `d % 7` is
exactly Python's `datetime.weekday()` (Monday = 0, Wednesday = 2).  Python's
`%` on a positive modulus agrees with `Int.emod`. -/

/-- `datetime.weekday()` of an integer day number (day 0 is a Monday). -/
def pyWeekday (d : Int) : Int := d % 7

/-- `get_previous_wednesday` (lines 117-134):
`days_since_wednesday = (today.weekday() - 2) % 7`; if zero (today is a
Wednesday) go back a full week, otherwise go back `days_since_wednesday`
days. -/
def get_previous_wednesday (today : Int) : Int :=
  if (pyWeekday today - 2) % 7 = 0 then today - 7
  else today - (pyWeekday today - 2) % 7

/-! ## Download orchestrator (download_video, lines 374-485) -/

/-- The three download strategies, in source order. -/
inductive Strategy where
  | direct
  | browserDl
  | jsClick
deriving DecidableEq

/-- Python's `a or b` on optional strings: `None` and the empty string are
falsy (line 400: `video_data.get('directUrl') or video_data.get('videoSrc')`). -/
def pyOrStr : Option String → Option String → Option String
  | some s, b => if s = "" then b else some s
  | none, b => b

/-- Python truthiness of an optional string (line 402: `if video_url:`). -/
def truthyStr : Option String → Bool
  | some s => decide (s ≠ "")
  | none => false

/-- Oracle for the effectful parts of one `download_video` call:
`preRaises` - the filename/mkdir preamble raises (outer except, line 483);
`directOk` - the streamed `requests.get` + `raise_for_status` + file write all
succeed (any HTTP error or transport exception makes it false);
`browserOk` - the `expect_download`/`goto`/`save_as` sequence succeeds;
`jsResult` - result of the method-3 script: `none` when the navigation or
evaluation raises, otherwise `some b` where `b` is the value returned by the
injected click script. -/
structure DownloadEnv where
  preRaises : Bool
  directOk : Bool
  browserOk : Bool
  jsResult : Option Bool
deriving DecidableEq

/-- `download_video` (lines 374-485), returning the overall boolean result and
the list of strategies attempted, in order.  Method 1 runs only when the
direct URL (`directUrl or videoSrc`) is truthy; each method's exceptions are
caught and control falls to the next method; method 3 succeeds only when the
click script returned true. -/
def download_video (v : VideoRecord) (env : DownloadEnv) : Bool × List Strategy :=
  if env.preRaises then (false, [])
  else if truthyStr (pyOrStr v.directUrl v.videoSrc) then
    if env.directOk then (true, [Strategy.direct])
    else if env.browserOk then (true, [Strategy.direct, Strategy.browserDl])
    else
      match env.jsResult with
      | some true => (true, [Strategy.direct, Strategy.browserDl, Strategy.jsClick])
      | _ => (false, [Strategy.direct, Strategy.browserDl, Strategy.jsClick])
  else if env.browserOk then (true, [Strategy.browserDl])
  else
    match env.jsResult with
    | some true => (true, [Strategy.browserDl, Strategy.jsClick])
    | _ => (false, [Strategy.browserDl, Strategy.jsClick])

/-! ## Session teardown (close_browser, lines 106-115) -/

/-- The four resources released by `close_browser`, in source order. -/
inductive Res where
  | page
  | context
  | browser
  | playwright
deriving DecidableEq

/-- Which resources currently exist (the `if self.page:` style presence
guards). -/
structure BrowserState where
  hasPage : Bool
  hasContext : Bool
  hasBrowser : Bool
  hasPlaywright : Bool
deriving DecidableEq

/-- Oracle: whether each individual `close()`/`stop()` call raises. -/
structure CloseBehavior where
  pageRaises : Bool
  contextRaises : Bool
  browserRaises : Bool
  playwrightRaises : Bool
deriving DecidableEq

/-- Run a sequence of guarded closes: each entry is (resource exists, closing
it raises, resource name).  A missing resource is skipped; a raising close
aborts the remaining closes (there is no try/except around the awaits in
`close_browser`).  Returns the resources actually closed, in order, and
whether an exception escaped. -/
def closeSeq : List (Bool × Bool × Res) → List Res × Bool
  | [] => ([], false)
  | (present, raises, r) :: rest =>
    if present then
      if raises then ([], true)
      else (r :: (closeSeq rest).1, (closeSeq rest).2)
    else closeSeq rest

/-- `close_browser` (lines 106-115): page, context, browser, playwright in
that order, each behind a presence check. -/
def close_browser (st : BrowserState) (b : CloseBehavior) : List Res × Bool :=
  closeSeq [(st.hasPage, b.pageRaises, Res.page),
            (st.hasContext, b.contextRaises, Res.context),
            (st.hasBrowser, b.browserRaises, Res.browser),
            (st.hasPlaywright, b.playwrightRaises, Res.playwright)]

/-! ## Filter selection (select_filters, lines 183-290) -/

/-- The log messages relevant to the date-filter step of `select_filters`. -/
inductive LogMsg where
  | selectedCenter
  | selectedCourt
  | selectedDate (d : String)
  | clickedOk
  | dateNotAvailable (d : String)
  | errorSelectingFilters
deriving DecidableEq

/-- Oracle for one `select_filters` call: whether any scripted interaction
before the date step raises (caught by the outer except, line 288), the
option values of the `#videos_days` select, the computed DateKey, and whether
the scripted date step itself raises at its first `evaluate` (caught by the
inner except, line 275). -/
structure FilterEnv where
  preDateRaises : Bool
  dateOptions : List String
  dateKey : String
  dateStepRaises : Bool
deriving DecidableEq

/-- The injected date-selection script (lines 248-263): check that the wanted
date is among the select's options; only then assign it and dispatch the
change event.  Returns the script's boolean result (which the Python caller
discards) and the value the select ends up holding (`none` = left at its
default). -/
def select_date_js (options : List String) (d : String) : Bool × Option String :=
  if d ∈ options then (true, some d) else (false, none)

/-- The date-selection try-block of `select_filters` (lines 247-278): if the
evaluation raises, the inner except logs the "not available" warning; otherwise
the script runs, and the code logs "Selected date" and clicks OK regardless of
whether the option existed. -/
def date_step (options : List String) (d : String) (raises : Bool) :
    Option String × List LogMsg :=
  if raises then (none, [LogMsg.dateNotAvailable d])
  else ((select_date_js options d).2, [LogMsg.selectedDate d, LogMsg.clickedOk])

/-- `select_filters` (lines 183-290): returns (overall result, the value held
by the date select, the log messages).  The overall result is false only when
an exception escapes to the outer except; the date step's failures are caught
inside and never make the call fail. -/
def select_filters (env : FilterEnv) : Bool × Option String × List LogMsg :=
  if env.preDateRaises then (false, none, [LogMsg.errorSelectingFilters])
  else (true, (date_step env.dateOptions env.dateKey env.dateStepRaises).1,
        LogMsg.selectedCenter :: LogMsg.selectedCourt ::
          (date_step env.dateOptions env.dateKey env.dateStepRaises).2)

/-! ## Run loop (download_videos, lines 487-564, and main, lines 567-614) -/

/-- Classification of one iteration of the retry loop are sorted by which step
fails first; `ok` means the attempt reached the download phase and returned
True. -/
inductive AttemptOutcome where
  | ok
  | emptyList
  | loginFail
  | filtersFail
  | exn
deriving DecidableEq

/-- Oracle for one attempt of the retry loop: whether an uncaught exception
escapes the try body, whether `login` returns True, whether `select_filters`
returns True, and the inputs of `get_video_links` (whether its body raises and
the scraped cards). -/
structure AttemptEnv where
  exn : Bool
  login : Bool
  filters : Bool
  listerRaises : Bool
  cards : List VideoRecord
deriving DecidableEq

/-- Outcome of one attempt, following the order of checks in the loop body
(lines 505-553). -/
def outcomeOf (e : AttemptEnv) : AttemptOutcome :=
  if e.exn then AttemptOutcome.exn
  else if e.login then
    if e.filters then
      if get_video_links e.listerRaises e.cards = [] then AttemptOutcome.emptyList
      else AttemptOutcome.ok
    else AttemptOutcome.filtersFail
  else AttemptOutcome.loginFail

/-- One recorded attempt: the headless flag the browser was launched with,
the attempt's outcome, and whether the `finally` teardown ran for it (it runs
on every path out of the try body, so the model records `true` there). -/
structure Attempt where
  headless : Bool
  outcome : AttemptOutcome
  teardownRan : Bool
deriving DecidableEq

/-- The `while retry_count <= max_retries` loop of `download_videos`
(lines 497-564), with fuel equal to the number of remaining permitted
attempts.  On the final retry a headless run is switched to visible
(lines 499-503).  Login/filter failures and uncaught exceptions retry and
ultimately return False; an empty listing retries and ultimately returns
True; a successful attempt returns True immediately.  The `finally` runs
`close_browser` on every iteration. -/
def dvLoop (env : Nat → AttemptEnv) (max_retries : Nat) :
    Nat → Bool → Nat → Bool × List Attempt
  | 0, _, _ => (false, [])
  | fuel + 1, headless, retry_count =>
    let hl := if 0 < retry_count then
        (if headless && (retry_count == max_retries) then false else headless)
      else headless
    match outcomeOf (env retry_count) with
    | AttemptOutcome.ok => (true, [⟨hl, AttemptOutcome.ok, true⟩])
    | o =>
      if retry_count < max_retries then
        ((dvLoop env max_retries fuel hl (retry_count + 1)).1,
          ⟨hl, o, true⟩ :: (dvLoop env max_retries fuel hl (retry_count + 1)).2)
      else (if o = AttemptOutcome.emptyList then true else false, [⟨hl, o, true⟩])

/-- `download_videos` (lines 487-564): `max_retries = 2`, `retry_count = 0`,
so at most three attempts ever run. -/
def download_videos (env : Nat → AttemptEnv) (headless0 : Bool) :
    Bool × List Attempt :=
  dvLoop env 2 3 headless0 0

/-- The exit code computed by `main` (lines 607-614): 0 when
`download_videos` returned True, 1 otherwise. -/
def main_exit_code (env : Nat → AttemptEnv) (headless0 : Bool) : Nat :=
  if (download_videos env headless0).1 then 0 else 1

/-! ## Filesystem writes (download_video, lines 414-417) -/

/-- `open(download_path, 'wb')` followed by writing the whole body: the file
at `path` is truncated and replaced by `content`, every other file is
untouched. -/
def fsWrite (fs : List Char → Option (List Char)) (path content : List Char) :
    List Char → Option (List Char) :=
  fun p => if p = path then some content else fs p

/-- The destination path `download_dir / date_str / filename`
(lines 393-397). -/
def download_path (download_dir date_key title : List Char) : List Char :=
  download_dir ++ ("/".data) ++ date_key ++ ("/".data) ++ video_filename title

/-! ## Helper lemmas -/

theorem dropWhile_eq_self_of_not {p : Char → Bool} {l : List Char}
    (h : ∀ c ∈ l, p c = false) : l.dropWhile p = l := by
  cases l with
  | nil => rfl
  | cons a t =>
    rw [List.dropWhile_cons, h a (List.mem_cons_self a t)]
    simp

theorem word_not_sep (c : Char) (h : isWordChar c = true) : isSepChar c = false := by
  by_contra hx
  rw [Bool.not_eq_false] at hx
  have hcases : c = '-' ∨ c = ' ' ∨ c = '\t' ∨ c = '\n' ∨ c = '\r' ∨
      c = '\x0b' ∨ c = '\x0c' := by
    simpa [isSepChar, isSpaceChar, or_assoc] using hx
  rcases hcases with rfl | rfl | rfl | rfl | rfl | rfl | rfl <;>
    exact absurd h (by decide)

theorem word_not_space (c : Char) (h : isWordChar c = true) : isSpaceChar c = false := by
  have hs := word_not_sep c h
  simp only [isSepChar, Bool.or_eq_false_iff] at hs
  exact hs.2

theorem mem_stripForbidden {c : Char} {l : List Char} (h : c ∈ stripForbidden l) :
    (isWordChar c || isSepChar c) = true := by
  simp only [stripForbidden, List.mem_filter, Bool.or_eq_true, beq_iff_eq,
    or_assoc] at h
  simp only [Bool.or_eq_true]
  rcases h.2 with hw | hs | hd
  · exact Or.inl hw
  · exact Or.inr (by simp [isSepChar, hs])
  · exact Or.inr (by simp [isSepChar, hd])

theorem mem_pyStrip {c : Char} {l : List Char} (h : c ∈ pyStrip l) : c ∈ l := by
  simp only [pyStrip, List.mem_reverse] at h
  have h2 := List.dropWhile_subset isSpaceChar h
  rw [List.mem_reverse] at h2
  exact List.dropWhile_subset isSpaceChar h2

theorem collapseSeps_all_word :
    ∀ (l : List Char) (b : Bool),
      (∀ c ∈ l, (isWordChar c || isSepChar c) = true) →
      ∀ c ∈ collapseSeps b l, isWordChar c = true := by
  intro l
  induction l with
  | nil => intro b _ c hc; simp [collapseSeps] at hc
  | cons a t ih =>
    intro b hall c hc
    have htail : ∀ d ∈ t, (isWordChar d || isSepChar d) = true :=
      fun d hd => hall d (List.mem_cons_of_mem a hd)
    cases hsep : isSepChar a with
    | true =>
      cases b with
      | true =>
        have heq : collapseSeps true (a :: t) = collapseSeps true t := by
          simp [collapseSeps, hsep]
        rw [heq] at hc
        exact ih true htail c hc
      | false =>
        have heq : collapseSeps false (a :: t) = '_' :: collapseSeps true t := by
          simp [collapseSeps, hsep]
        rw [heq] at hc
        rcases List.mem_cons.mp hc with rfl | hc2
        · decide
        · exact ih true htail c hc2
    | false =>
      have heq : collapseSeps b (a :: t) = a :: collapseSeps false t := by
        cases b <;> simp [collapseSeps, hsep]
      rw [heq] at hc
      rcases List.mem_cons.mp hc with rfl | hc2
      · have h2 := hall c (List.mem_cons_self c t)
        rcases Bool.or_eq_true_iff.mp h2 with hw | hs2
        · exact hw
        · rw [hsep] at hs2; exact absurd hs2 (by decide)
      · exact ih false htail c hc2

theorem collapseSeps_id :
    ∀ (l : List Char), (∀ c ∈ l, isSepChar c = false) → collapseSeps false l = l := by
  intro l
  induction l with
  | nil => intro _; rfl
  | cons a t ih =>
    intro h
    have ha := h a (List.mem_cons_self a t)
    have ht := ih (fun c hc => h c (List.mem_cons_of_mem a hc))
    simp [collapseSeps, ha, ht]

theorem sanitize_all_word (t : List Char) :
    ∀ c ∈ sanitize_title t, isWordChar c = true := by
  intro c hc
  refine collapseSeps_all_word _ false ?_ c hc
  intro d hd
  exact mem_stripForbidden (mem_pyStrip hd)

/-! ## Claim C2 -/

/-- Claim C2: for any fixed "today", the date computed by
`get_previous_wednesday` is always a Wednesday (weekday 2), is always at most
today, and is exactly 7 days earlier when today is itself a Wednesday. -/
theorem previous_wednesday_correct (today : Int) :
    pyWeekday (get_previous_wednesday today) = 2 ∧
    get_previous_wednesday today ≤ today ∧
    (pyWeekday today = 2 → get_previous_wednesday today = today - 7) := by
  unfold get_previous_wednesday pyWeekday
  split <;> refine ⟨?_, ?_, fun h => ?_⟩ <;> omega

/-- Witness for C2 at today = 9 (a Wednesday in the Monday-epoch model). -/
theorem previous_wednesday_correct_witness :
    pyWeekday (get_previous_wednesday 9) = 2 ∧
    get_previous_wednesday 9 ≤ 9 ∧
    get_previous_wednesday 9 = 9 - 7 :=
  ⟨(previous_wednesday_correct 9).1, (previous_wednesday_correct 9).2.1,
   (previous_wednesday_correct 9).2.2 (by decide)⟩

/-! ## Claim C3 -/

/-- Claim C3: the filename sanitization (the `safe_title` computation) is
idempotent, and the produced filename consists of the sanitized title - made
of characters in [A-Za-z0-9_] only - followed by the fixed ".mp4" extension. -/
theorem sanitize_idempotent_charset (title : List Char) :
    sanitize_title (sanitize_title title) = sanitize_title title ∧
    video_filename title = sanitize_title title ++ (".mp4".data) ∧
    ∀ c ∈ sanitize_title title, isWordChar c = true := by
  have hw := sanitize_all_word title
  refine ⟨?_, rfl, hw⟩
  have h1 : stripForbidden (sanitize_title title) = sanitize_title title := by
    apply List.filter_eq_self.mpr
    intro c hc
    simp [hw c hc]
  have hnosp : ∀ c ∈ sanitize_title title, isSpaceChar c = false :=
    fun c hc => word_not_space c (hw c hc)
  have h2 : pyStrip (sanitize_title title) = sanitize_title title := by
    unfold pyStrip
    rw [dropWhile_eq_self_of_not hnosp]
    rw [dropWhile_eq_self_of_not (fun c hc => hnosp c (List.mem_reverse.mp hc))]
    exact List.reverse_reverse _
  show collapseSeps false (pyStrip (stripForbidden (sanitize_title title))) =
    sanitize_title title
  rw [h1, h2]
  exact collapseSeps_id _ (fun c hc => word_not_sep c (hw c hc))

/-- Witness for C3 at the concrete title "a b". -/
theorem sanitize_idempotent_charset_witness :
    sanitize_title (sanitize_title ("a b".data)) = sanitize_title ("a b".data) ∧
    video_filename ("a b".data) = sanitize_title ("a b".data) ++ (".mp4".data) ∧
    isWordChar 'b' = true :=
  ⟨(sanitize_idempotent_charset ("a b".data)).1,
   (sanitize_idempotent_charset ("a b".data)).2.1,
   (sanitize_idempotent_charset ("a b".data)).2.2 'b' (by decide)⟩

/-! ## Claim C4 -/

theorem filter_videos_fst (vs : List VideoRecord) :
    (filter_videos vs).1 = vs.filter (fun v => keepVideo v.title) := by
  induction vs with
  | nil => rfl
  | cons v rest ih =>
    rw [List.filter_cons]
    cases hm : reSearchTime v.title with
    | none => simp [filter_videos, keepVideo, hm, ih]
    | some t =>
      by_cases hr : 1200 ≤ time_value t ∧ time_value t ≤ 1330
      · simp [filter_videos, keepVideo, hm, hr, ih]
      · simp [filter_videos, keepVideo, hm, hr, ih]

theorem filter_videos_warn (vs : List VideoRecord) (v : VideoRecord)
    (hv : v ∈ vs) (hn : reSearchTime v.title = none) :
    v.title ∈ (filter_videos vs).2 := by
  induction vs with
  | nil => simp at hv
  | cons u rest ih =>
    rcases List.mem_cons.mp hv with rfl | hv2
    · simp [filter_videos, hn]
    · have hr := ih hv2
      cases hm : reSearchTime u.title with
      | none =>
        simp only [filter_videos, hm]
        exact List.mem_cons_of_mem _ hr
      | some t =>
        by_cases hrange : 1200 ≤ time_value t ∧ time_value t ≤ 1330 <;>
          simp only [filter_videos, hm, hrange, if_true, if_false] <;>
          simpa using hr

/-- Counterexample to claim C4 as stated: the title "11h59 12h00" contains the
in-range pattern "12h00", yet the video is excluded, because the code only
inspects the first (leftmost) regex match, which is "11h59". -/
theorem time_filter_counterexample :
    containsTimeInRange ("11h59 12h00".data) = true ∧
    reSearchTime ("11h59 12h00".data) = some (11, 59) ∧
    (filter_videos [⟨"11h59 12h00".data, "u", some "x", none, 0⟩]).1 = [] := by
  decide

/-- Claim C4 as amended: the time-window filter keeps exactly the videos whose
title's first (leftmost, greedy) `<1-2 digit>h<2 digits>` match has
hour*100+minute in [1200, 1330]; a video whose title has no such match is kept
anyway, with a "could not determine time" warning recorded for it. -/
theorem time_filter_first_match (vs : List VideoRecord) (v : VideoRecord) :
    (v ∈ (filter_videos vs).1 ↔ v ∈ vs ∧ keepVideo v.title = true) ∧
    (reSearchTime v.title = none → keepVideo v.title = true) ∧
    (v ∈ vs → reSearchTime v.title = none → v.title ∈ (filter_videos vs).2) := by
  refine ⟨?_, ?_, ?_⟩
  · rw [filter_videos_fst]
    exact List.mem_filter
  · intro h
    simp [keepVideo, h]
  · intro hv hn
    exact filter_videos_warn vs v hv hn

/-- Witness for C4 (amended) at a single video titled "hello": no time match,
so the video is kept and its title is recorded as a warning. -/
theorem time_filter_first_match_witness :
    ((⟨"hello".data, "u", some "x", none, 0⟩ : VideoRecord) ∈
        (filter_videos [⟨"hello".data, "u", some "x", none, 0⟩]).1 ↔
      (⟨"hello".data, "u", some "x", none, 0⟩ : VideoRecord) ∈
          [(⟨"hello".data, "u", some "x", none, 0⟩ : VideoRecord)] ∧
        keepVideo ("hello".data) = true) ∧
    ("hello".data) ∈ (filter_videos [⟨"hello".data, "u", some "x", none, 0⟩]).2 :=
  ⟨(time_filter_first_match [⟨"hello".data, "u", some "x", none, 0⟩]
      ⟨"hello".data, "u", some "x", none, 0⟩).1,
   (time_filter_first_match [⟨"hello".data, "u", some "x", none, 0⟩]
      ⟨"hello".data, "u", some "x", none, 0⟩).2.2 (by decide) (by decide)⟩

/-! ## Claim C1 -/

/-- Claim C1: when the preamble does not raise and the record carries a truthy
direct URL (every record produced by the lister does), the strategies are
attempted in strict priority order - direct fetch, then browser download, then
the DOM click trigger - stopping at the first success, and the call returns
false exactly when all three raise or return false. -/
theorem download_fallback_order (v : VideoRecord) (env : DownloadEnv)
    (hpre : env.preRaises = false)
    (hurl : truthyStr (pyOrStr v.directUrl v.videoSrc) = true) :
    (download_video v env).2 =
      Strategy.direct ::
        (if env.directOk then []
         else Strategy.browserDl :: (if env.browserOk then [] else [Strategy.jsClick])) ∧
    ((download_video v env).1 = false ↔
      env.directOk = false ∧ env.browserOk = false ∧ env.jsResult ≠ some true) := by
  cases hd : env.directOk <;> cases hb : env.browserOk <;>
    rcases hj : env.jsResult with _ | b
  all_goals try cases b
  all_goals simp [download_video, hpre, hurl, hd, hb, hj]

/-- Witness for C1: all three strategies fail, the trace is the full chain and
the result is false. -/
theorem download_fallback_order_witness :
    (download_video ⟨"t".data, "u", some "x", none, 0⟩
        ⟨false, false, false, some false⟩).2 =
      [Strategy.direct, Strategy.browserDl, Strategy.jsClick] ∧
    ((download_video ⟨"t".data, "u", some "x", none, 0⟩
        ⟨false, false, false, some false⟩).1 = false ↔
      false = false ∧ false = false ∧ (some false : Option Bool) ≠ some true) :=
  download_fallback_order ⟨"t".data, "u", some "x", none, 0⟩
    ⟨false, false, false, some false⟩ rfl (by decide)

/-! ## Run loop helper -/

theorem dvLoop_teardown (env : Nat → AttemptEnv) (m : Nat) :
    ∀ (fuel : Nat) (hl : Bool) (rc : Nat) (a : Attempt),
      a ∈ (dvLoop env m fuel hl rc).2 → a.teardownRan = true := by
  intro fuel
  induction fuel with
  | zero => intro hl rc a ha; simp [dvLoop] at ha
  | succ n ih =>
    intro hl rc a ha
    by_cases hrc : rc < m
    · cases ho : outcomeOf (env rc) <;> simp [dvLoop, ho, hrc] at ha <;>
        first
          | (rcases ha with rfl | ha; exacts [rfl, ih _ _ a ha])
          | (rcases ha with rfl; rfl)
    · cases ho : outcomeOf (env rc) <;> simp [dvLoop, ho, hrc] at ha <;>
        (rcases ha with rfl; rfl)

/-! ## Claim C5 -/

/-- Claim C5: three consecutive login failures make the run loop return False
(exit code 1) after exactly three attempts, and the third attempt runs with
the headless flag off (in particular when the process started headless). -/
theorem login_retry_exhaustion (env : Nat → AttemptEnv) (h0 : Bool)
    (h : ∀ i, i ≤ 2 → (env i).exn = false ∧ (env i).login = false) :
    download_videos env h0 =
      (false, [⟨h0, AttemptOutcome.loginFail, true⟩, ⟨h0, AttemptOutcome.loginFail, true⟩,
               ⟨false, AttemptOutcome.loginFail, true⟩]) ∧
    main_exit_code env h0 = 1 := by
  obtain ⟨e0, l0⟩ := h 0 (by omega)
  obtain ⟨e1, l1⟩ := h 1 (by omega)
  obtain ⟨e2, l2⟩ := h 2 (by omega)
  cases h0 <;>
    simp [download_videos, main_exit_code, dvLoop, outcomeOf, e0, l0, e1, l1, e2, l2]

/-- Witness for C5: a concrete oracle failing every login, starting headless. -/
theorem login_retry_exhaustion_witness :
    download_videos (fun _ => ⟨false, false, true, false, []⟩) true =
      (false, [⟨true, AttemptOutcome.loginFail, true⟩,
               ⟨true, AttemptOutcome.loginFail, true⟩,
               ⟨false, AttemptOutcome.loginFail, true⟩]) ∧
    main_exit_code (fun _ => ⟨false, false, true, false, []⟩) true = 1 :=
  login_retry_exhaustion (fun _ => ⟨false, false, true, false, []⟩) true
    (fun _ _ => ⟨rfl, rfl⟩)

/-! ## Claim C6 -/

/-- Claim C6: when the video listing comes back empty on every attempt, the
loop retries up to the bound (three attempts) and then returns True, so the
process exits with code 0. -/
theorem empty_listing_success (env : Nat → AttemptEnv) (h0 : Bool)
    (h : ∀ i, i ≤ 2 → (env i).exn = false ∧ (env i).login = true ∧
          (env i).filters = true ∧
          get_video_links (env i).listerRaises (env i).cards = []) :
    download_videos env h0 =
      (true, [⟨h0, AttemptOutcome.emptyList, true⟩, ⟨h0, AttemptOutcome.emptyList, true⟩,
              ⟨false, AttemptOutcome.emptyList, true⟩]) ∧
    main_exit_code env h0 = 0 := by
  obtain ⟨e0, l0, f0, g0⟩ := h 0 (by omega)
  obtain ⟨e1, l1, f1, g1⟩ := h 1 (by omega)
  obtain ⟨e2, l2, f2, g2⟩ := h 2 (by omega)
  cases h0 <;>
    simp [download_videos, main_exit_code, dvLoop, outcomeOf,
      e0, l0, f0, g0, e1, l1, f1, g1, e2, l2, f2, g2]

/-- Witness for C6: a concrete oracle with a genuinely empty listing. -/
theorem empty_listing_success_witness :
    download_videos (fun _ => ⟨false, true, true, false, []⟩) false =
      (true, [⟨false, AttemptOutcome.emptyList, true⟩,
              ⟨false, AttemptOutcome.emptyList, true⟩,
              ⟨false, AttemptOutcome.emptyList, true⟩]) ∧
    main_exit_code (fun _ => ⟨false, true, true, false, []⟩) false = 0 :=
  empty_listing_success (fun _ => ⟨false, true, true, false, []⟩) false
    (fun _ _ => ⟨rfl, rfl, rfl, rfl⟩)

/-! ## Claim C9 -/

/-- Claim C9: any exception inside `get_video_links` yields the empty list
instead of propagating, so a run whose lister raises on every attempt is
indistinguishable at the run loop from one with a genuinely empty listing, and
after the retries exhaust the process exits with code 0. -/
theorem lister_exception_empty (env : Nat → AttemptEnv) (h0 : Bool)
    (h : ∀ i, i ≤ 2 → (env i).exn = false ∧ (env i).login = true ∧
          (env i).filters = true ∧ (env i).listerRaises = true) :
    (∀ cards, get_video_links true cards = []) ∧
    download_videos env h0 =
      download_videos
        (fun i => ⟨(env i).exn, (env i).login, (env i).filters, false, []⟩) h0 ∧
    main_exit_code env h0 = 0 := by
  obtain ⟨e0, l0, f0, r0⟩ := h 0 (by omega)
  obtain ⟨e1, l1, f1, r1⟩ := h 1 (by omega)
  obtain ⟨e2, l2, f2, r2⟩ := h 2 (by omega)
  refine ⟨fun cards => rfl, ?_, ?_⟩ <;>
    cases h0 <;>
      simp [download_videos, main_exit_code, dvLoop, outcomeOf, get_video_links,
        filter_videos, e0, l0, f0, r0, e1, l1, f1, r1, e2, l2, f2, r2]

/-- Witness for C9: the lister raises on every attempt even though a card was
scraped; exit code is 0. -/
theorem lister_exception_empty_witness :
    get_video_links true [⟨"x".data, "u", some "y", none, 0⟩] = [] ∧
    main_exit_code
      (fun _ => ⟨false, true, true, true, [⟨"x".data, "u", some "y", none, 0⟩]⟩)
      true = 0 :=
  ⟨(lister_exception_empty
      (fun _ => ⟨false, true, true, true, [⟨"x".data, "u", some "y", none, 0⟩]⟩)
      true (fun _ _ => ⟨rfl, rfl, rfl, rfl⟩)).1 [⟨"x".data, "u", some "y", none, 0⟩],
   (lister_exception_empty
      (fun _ => ⟨false, true, true, true, [⟨"x".data, "u", some "y", none, 0⟩]⟩)
      true (fun _ _ => ⟨rfl, rfl, rfl, rfl⟩)).2.2⟩

/-! ## Claim C7 -/

/-- Counterexample to claim C7 as stated: with all four resources present, a
failure while closing the page aborts the teardown - the context exists but is
never closed, because the closes are only guarded by presence checks, not
against exceptions. -/
theorem teardown_counterexample :
    (⟨true, true, true, true⟩ : BrowserState).hasContext = true ∧
    (close_browser ⟨true, true, true, true⟩ ⟨true, false, false, false⟩).2 = true ∧
    Res.context ∉ (close_browser ⟨true, true, true, true⟩ ⟨true, false, false, false⟩).1 := by
  decide

/-- Claim C7 as amended: the teardown runs on every iteration of the run loop
(the `finally`), and closes page, context, browser and the automation driver
in that order, each behind a presence guard (a resource never created is
skipped); when no individual close raises, every existing resource is closed
and no exception escapes.  The guards do not protect against exceptions: a
failing close skips the remaining resources. -/
theorem teardown_order (st : BrowserState) (b : CloseBehavior)
    (env : Nat → AttemptEnv) (h0 : Bool)
    (hb : b.pageRaises = false ∧ b.contextRaises = false ∧
      b.browserRaises = false ∧ b.playwrightRaises = false) :
    close_browser st b =
      ((if st.hasPage then [Res.page] else []) ++
       (if st.hasContext then [Res.context] else []) ++
       (if st.hasBrowser then [Res.browser] else []) ++
       (if st.hasPlaywright then [Res.playwright] else []), false) ∧
    ∀ a ∈ (download_videos env h0).2, a.teardownRan = true := by
  obtain ⟨h1, h2, h3, h4⟩ := hb
  constructor
  · cases hp : st.hasPage <;> cases hc : st.hasContext <;>
      cases hbr : st.hasBrowser <;> cases hpw : st.hasPlaywright <;>
      simp [close_browser, closeSeq, h1, h2, h3, h4, hp, hc, hbr, hpw]
  · intro a ha
    exact dvLoop_teardown env 2 3 h0 0 a ha

/-- Witness for C7 (amended): all resources present, no close raises. -/
theorem teardown_order_witness :
    close_browser ⟨true, true, true, true⟩ ⟨false, false, false, false⟩ =
      ([Res.page, Res.context, Res.browser, Res.playwright], false) :=
  (teardown_order ⟨true, true, true, true⟩ ⟨false, false, false, false⟩
    (fun _ => ⟨false, false, true, false, []⟩) true ⟨rfl, rfl, rfl, rfl⟩).1

/-! ## Claim C8 -/

/-- Counterexample to claim C8 as stated: with the DateKey absent from the
options and nothing raising, the filter is left at its default and
`select_filters` still returns True, but the absence is NOT logged - the code
logs the "Selected date" message anyway, and the "not available" message is
never emitted. -/
theorem date_filter_counterexample :
    ("20250604" ∉ (⟨false, ["20250101"], "20250604", false⟩ : FilterEnv).dateOptions) ∧
    (select_filters ⟨false, ["20250101"], "20250604", false⟩).1 = true ∧
    (select_filters ⟨false, ["20250101"], "20250604", false⟩).2.1 = none ∧
    LogMsg.dateNotAvailable "20250604" ∉
      (select_filters ⟨false, ["20250101"], "20250604", false⟩).2.2 ∧
    LogMsg.selectedDate "20250604" ∈
      (select_filters ⟨false, ["20250101"], "20250604", false⟩).2.2 := by
  decide

/-- Claim C8 as amended: the computed DateKey is verified present among the
date select's options before being assigned (the select holds a value only if
it is the DateKey and it is among the options); if absent, the filter stays at
its default and `applyFilters` still returns True - but the absence is not
logged: the "Selected date" message is logged regardless, and the
"not available" warning is only emitted when the scripted date step raises. -/
theorem date_filter_behavior (env : FilterEnv)
    (hpre : env.preDateRaises = false) (hds : env.dateStepRaises = false) :
    (select_filters env).1 = true ∧
    (∀ v, (select_filters env).2.1 = some v → v = env.dateKey ∧ v ∈ env.dateOptions) ∧
    (env.dateKey ∉ env.dateOptions →
      (select_filters env).2.1 = none ∧
      LogMsg.dateNotAvailable env.dateKey ∉ (select_filters env).2.2 ∧
      LogMsg.selectedDate env.dateKey ∈ (select_filters env).2.2) := by
  by_cases hmem : env.dateKey ∈ env.dateOptions <;>
    simp [select_filters, date_step, select_date_js, hpre, hds, hmem]

/-- Witness for C8 (amended): the DateKey is among the options, the call
succeeds and the select holds the DateKey. -/
theorem date_filter_behavior_witness :
    (select_filters ⟨false, ["20250604"], "20250604", false⟩).1 = true :=
  (date_filter_behavior ⟨false, ["20250604"], "20250604", false⟩ rfl rfl).1

/-! ## Claim C10 -/

/-- Claim C10: sanitization is not injective - "a.b" and "ab" are distinct
titles mapping to the same filename - and since the direct-fetch strategy
opens the destination in overwrite mode, writing the second video's content
to its path silently replaces whatever the first download wrote, whatever the
prior state of the filesystem. -/
theorem filename_collision_overwrite (fs : List Char → Option (List Char))
    (c1 c2 d s : List Char) :
    ("a.b".data ≠ "ab".data) ∧
    download_path d s ("a.b".data) = download_path d s ("ab".data) ∧
    fsWrite (fsWrite fs (download_path d s ("a.b".data)) c1)
        (download_path d s ("ab".data)) c2 (download_path d s ("a.b".data)) =
      some c2 := by
  have hf : video_filename ("a.b".data) = video_filename ("ab".data) := by decide
  have hp : download_path d s ("a.b".data) = download_path d s ("ab".data) := by
    simp [download_path, hf]
  refine ⟨by decide, hp, ?_⟩
  rw [hp]
  simp [fsWrite]

end HoopsFactory
